import Mathlib

/-!
Verification development for the double-track planar vehicle dynamics model
and its NLP stage constraints (Racing-LMPC).

The state vector is x = (world x, world y, yaw, yaw rate, slip angle, speed),
the control vector is u = (drive force, brake force, steer angle), and the
auxiliary gamma_y is the lateral load transfer.  All real arithmetic of the
C++ source (double_track_planar_model.cpp) is embedded over the reals; each
definition below transcribes the corresponding expression of the source.
-/

open Real

noncomputable section

abbrev V6 := Fin 6 → ℝ

abbrev V3 := Fin 3 → ℝ

/-- Physical and tuning parameters, the fields read by the model from
BaseVehicleModelConfig and DoubleTrackPlanarModelConfig. -/
structure Config where
  kd : ℝ            -- powertrain drive bias (kd_f in the source)
  kb : ℝ            -- front brake force bias (kb_f in the source)
  m : ℝ             -- total mass
  Jzz : ℝ           -- moment of inertia around z
  l : ℝ             -- wheel base
  cgr : ℝ           -- cg position fraction (cg to front axle = cgr * l)
  twf : ℝ           -- front track width
  twr : ℝ           -- rear track width
  fr : ℝ            -- rolling resistance coefficient
  hcog : ℝ          -- center of gravity height
  kroll_f : ℝ       -- front roll moment distribution
  cl_f : ℝ          -- front downforce coefficient
  cl_r : ℝ          -- rear downforce coefficient
  rho : ℝ           -- air density
  A : ℝ             -- frontal area
  cd : ℝ            -- drag coefficient
  mu : ℝ            -- tyre-track friction coefficient
  Bf : ℝ            -- magic formula B, front
  Cf : ℝ            -- magic formula C, front
  Ef : ℝ            -- magic formula E, front
  Fz0_f : ℝ         -- magic formula Fz0, front
  eps_f : ℝ         -- magic formula epsilon, front
  Br : ℝ            -- magic formula B, rear
  Cr : ℝ            -- magic formula C, rear
  Er : ℝ            -- magic formula E, rear
  Fz0_r : ℝ         -- magic formula Fz0, rear
  eps_r : ℝ         -- magic formula epsilon, rear
  P_max : ℝ         -- drive power limit
  Fd_max : ℝ        -- drive force limit
  Fb_max : ℝ        -- brake force limit (negative)
  Td : ℝ            -- drive force time constant
  Tb : ℝ            -- brake force time constant
  max_steer : ℝ     -- steering angle limit
  max_steer_rate : ℝ

def GRAVITY : ℝ := 9.8

def lf (p : Config) : ℝ := p.cgr * p.l

def lr (p : Config) : ℝ := p.l - lf p

/-- Longitudinal tyre force at a front wheel (eq. 4a of the source). -/
def Fx_f (p : Config) (u : V3) : ℝ :=
  0.5 * p.kd * u 0 + 0.5 * p.kb * u 1 - 0.5 * p.fr * p.m * GRAVITY * lr p / p.l

def Fx_fl (p : Config) (u : V3) : ℝ := Fx_f p u

def Fx_fr (p : Config) (u : V3) : ℝ := Fx_f p u

/-- Longitudinal tyre force at a rear wheel (eq. 4b of the source). -/
def Fx_r (p : Config) (u : V3) : ℝ :=
  0.5 * (1 - p.kd) * u 0 + 0.5 * (1.0 - p.kb) * u 1 - 0.5 * p.fr * p.m * GRAVITY * lf p / p.l

def Fx_rl (p : Config) (u : V3) : ℝ := Fx_r p u

def Fx_rr (p : Config) (u : V3) : ℝ := Fx_r p u

/-- Longitudinal acceleration (eq. 9 of the source). -/
def ax (p : Config) (x : V6) (u : V3) : ℝ :=
  (u 0 + u 1 - 0.5 * p.cd * p.A * (x 5) ^ 2 - p.fr * p.m * GRAVITY) / p.m

/-- Front axle vertical tyre force before lateral transfer (eq. 7a). -/
def Fz_f (p : Config) (x : V6) (u : V3) : ℝ :=
  0.5 * p.m * GRAVITY * lr p / (lf p + lr p) - 0.5 * p.hcog / (lf p + lr p) * p.m * ax p x u
    + 0.25 * p.cl_f * p.rho * p.A * (x 5) ^ 2

def Fz_fl (p : Config) (x : V6) (u : V3) (gamma_y : ℝ) : ℝ :=
  Fz_f p x u - p.kroll_f * gamma_y

def Fz_fr (p : Config) (x : V6) (u : V3) (gamma_y : ℝ) : ℝ :=
  Fz_f p x u + p.kroll_f * gamma_y

/-- Rear axle vertical tyre force before lateral transfer (eq. 7b); the
source uses lr in the static term here as well. -/
def Fz_r (p : Config) (x : V6) (u : V3) : ℝ :=
  0.5 * p.m * GRAVITY * lr p / (lf p + lr p) + 0.5 * p.hcog / (lf p + lr p) * p.m * ax p x u
    + 0.25 * p.cl_r * p.rho * p.A * (x 5) ^ 2

def Fz_rl (p : Config) (x : V6) (u : V3) (gamma_y : ℝ) : ℝ :=
  Fz_r p x u - (1.0 - p.kroll_f) * gamma_y

def Fz_rr (p : Config) (x : V6) (u : V3) (gamma_y : ℝ) : ℝ :=
  Fz_r p x u + (1.0 - p.kroll_f) * gamma_y

/-- Tyre sideslip angle, front left (eq. 6a). -/
def a_fl (p : Config) (x : V6) (u : V3) : ℝ :=
  u 2 - arctan ((lf p * x 3 + x 5 * sin (x 4)) / (x 5 * cos (x 4) - 0.5 * p.twf * x 3))

def a_fr (p : Config) (x : V6) (u : V3) : ℝ :=
  u 2 - arctan ((lf p * x 3 + x 5 * sin (x 4)) / (x 5 * cos (x 4) + 0.5 * p.twf * x 3))

def a_rl (p : Config) (x : V6) : ℝ :=
  arctan ((lr p * x 3 - x 5 * sin (x 4)) / (x 5 * cos (x 4) - 0.5 * p.twr * x 3))

def a_rr (p : Config) (x : V6) : ℝ :=
  arctan ((lr p * x 3 - x 5 * sin (x 4)) / (x 5 * cos (x 4) + 0.5 * p.twr * x 3))

/-- Lateral tyre force, load-sensitive magic formula (eq. 5). -/
def Fy_fl (p : Config) (x : V6) (u : V3) (gamma_y : ℝ) : ℝ :=
  p.mu * Fz_fl p x u gamma_y * (1.0 + p.eps_f * Fz_fl p x u gamma_y / p.Fz0_f) *
    sin (p.Cf * arctan (p.Bf * a_fl p x u
      - p.Ef * (p.Bf * a_fl p x u - arctan (p.Bf * a_fl p x u))))

def Fy_fr (p : Config) (x : V6) (u : V3) (gamma_y : ℝ) : ℝ :=
  p.mu * Fz_fr p x u gamma_y * (1.0 + p.eps_f * Fz_fr p x u gamma_y / p.Fz0_f) *
    sin (p.Cf * arctan (p.Bf * a_fr p x u
      - p.Ef * (p.Bf * a_fr p x u - arctan (p.Bf * a_fr p x u))))

def Fy_rl (p : Config) (x : V6) (u : V3) (gamma_y : ℝ) : ℝ :=
  p.mu * Fz_rl p x u gamma_y * (1.0 + p.eps_r * Fz_rl p x u gamma_y / p.Fz0_r) *
    sin (p.Cr * arctan (p.Br * a_rl p x
      - p.Er * (p.Br * a_rl p x - arctan (p.Br * a_rl p x))))

def Fy_rr (p : Config) (x : V6) (u : V3) (gamma_y : ℝ) : ℝ :=
  p.mu * Fz_rr p x u gamma_y * (1.0 + p.eps_r * Fz_rr p x u gamma_y / p.Fz0_r) *
    sin (p.Cr * arctan (p.Br * a_rr p x
      - p.Er * (p.Br * a_rr p x - arctan (p.Br * a_rr p x))))

/-- Speed magnitude derivative (eq. 3a). -/
def v_dot (p : Config) (x : V6) (u : V3) (gamma_y : ℝ) : ℝ :=
  1.0 / p.m *
    ((Fx_rl p u + Fx_rr p u) * cos (x 4) + (Fx_fl p u + Fx_fr p u) * cos (u 2 - x 4)
      + (Fy_rl p x u gamma_y + Fy_rr p x u gamma_y) * sin (x 4)
      - (Fy_fl p x u gamma_y + Fy_fr p x u gamma_y) * sin (u 2 - x 4)
      - 0.5 * p.cd * p.rho * p.A * (x 5) ^ 2 * cos (x 4))

/-- Slip angle derivative (eq. 3b). -/
def beta_dot (p : Config) (x : V6) (u : V3) (gamma_y : ℝ) : ℝ :=
  -(x 3) + 1.0 / (p.m * x 5) *
    (-(Fx_rl p u + Fx_rr p u) * sin (x 4) + (Fx_fl p u + Fx_fr p u) * sin (u 2 - x 4)
      + (Fy_rl p x u gamma_y + Fy_rr p x u gamma_y) * cos (x 4)
      + (Fy_fl p x u gamma_y + Fy_fr p x u gamma_y) * cos (u 2 - x 4)
      + 0.5 * p.cd * p.rho * p.A * (x 5) ^ 2 * sin (x 4))

/-- Yaw rate derivative (eq. 3c). -/
def omega_dot (p : Config) (x : V6) (u : V3) (gamma_y : ℝ) : ℝ :=
  1.0 / p.Jzz *
    ((Fx_rr p u - Fx_rl p u) * p.twr / 2 - (Fy_rl p x u gamma_y + Fy_rr p x u gamma_y) * lr p
      + ((Fx_fr p u - Fx_fl p u) * cos (u 2) + (Fy_fl p x u gamma_y - Fy_fr p x u gamma_y)
          * sin (u 2)) * p.twf / 2.0
      + ((Fy_fl p x u gamma_y + Fy_fr p x u gamma_y) * cos (u 2)
          + (Fx_fl p u + Fx_fr p u) * sin (u 2)) * lf p)

/-- State derivative vector of the compiled dynamics function. -/
def x_dot (p : Config) (x : V6) (u : V3) (gamma_y : ℝ) : V6 :=
  ![x 5 * cos (x 2), x 5 * sin (x 2), x 3,
    omega_dot p x u gamma_y, beta_dot p x u gamma_y, v_dot p x u gamma_y]

/-- Per-wheel longitudinal forces, order FL, FR, RL, RR. -/
def Fx_ij (p : Config) (u : V3) : Fin 4 → ℝ :=
  ![Fx_fl p u, Fx_fr p u, Fx_rl p u, Fx_rr p u]

/-- Per-wheel lateral forces, order FL, FR, RL, RR. -/
def Fy_ij (p : Config) (x : V6) (u : V3) (gamma_y : ℝ) : Fin 4 → ℝ :=
  ![Fy_fl p x u gamma_y, Fy_fr p x u gamma_y, Fy_rl p x u gamma_y, Fy_rr p x u gamma_y]

/-- Per-wheel vertical forces, order FL, FR, RL, RR. -/
def Fz_ij (p : Config) (x : V6) (u : V3) (gamma_y : ℝ) : Fin 4 → ℝ :=
  ![Fz_fl p x u gamma_y, Fz_fr p x u gamma_y, Fz_rl p x u gamma_y, Fz_rr p x u gamma_y]

/-- Closed-form lateral load transfer expression of the load transfer
constraint (lines 117-121 of the source). -/
def lltExpr (p : Config) (x : V6) (u : V3) (gamma_y : ℝ) : ℝ :=
  p.hcog / (0.5 * (p.twf + p.twr)) *
    (Fy_ij p x u gamma_y 2 + Fy_ij p x u gamma_y 3
      + (Fx_ij p u 0 + Fx_ij p u 1) * sin (u 2)
      + (Fy_ij p x u gamma_y 0 + Fy_ij p x u gamma_y 1) * cos (u 2))

/-- Modelled from the spec: the member function lateral_load_transfer_ of
DoubleTrackPlanarModel.  Its initialization is absent from the sources
(the rootfinder construction in compile_dynamics is commented out and the
class header is not available); per the spec the load transfer is resolved
by evaluating the load transfer equilibrium expression at the supplied
gamma, currently gamma = 0, rather than iterating to a fixed point. -/
def lateral_load_transfer (p : Config) (x : V6) (u : V3) (gamma_y : ℝ) : ℝ :=
  lltExpr p x u gamma_y

/-- Output record of forward_dynamics. -/
structure FwdOut where
  xd : V6
  FxOut : Fin 4 → ℝ
  FyOut : Fin 4 → ℝ
  FzOut : Fin 4 → ℝ
  gamma_y : ℝ

/-- Single-step dynamics evaluation: evaluates the compiled dynamics at a
symbolic gamma, resolves gamma by the (spec-modelled) lateral load
transfer at 0, and substitutes it into every output. -/
def forward_dynamics (p : Config) (x : V6) (u : V3) : FwdOut :=
  let gamma_y_solve := lateral_load_transfer p x u 0
  ⟨x_dot p x u gamma_y_solve, Fx_ij p u, Fy_ij p x u gamma_y_solve,
    Fz_ij p x u gamma_y_solve, gamma_y_solve⟩

/-- Modelled from the spec: lmpc utils align_yaw, whose definition is not
among the sources (only its call site is).  It shifts the first yaw by the
integer multiple of 2 pi that brings it closest to the reference yaw. -/
def alignYaw (yaw ref : ℝ) : ℝ :=
  yaw + 2 * π * ((round ((ref - yaw) / (2 * π)) : ℤ) : ℝ)

/-- The next-stage state with its yaw aligned to the yaw of the current
stage (xip1_temp of add_nlp_constraints, lines 97-98). -/
def xip1Temp (x xip1 : V6) : V6 :=
  Function.update xip1 2 (alignYaw (xip1 2) (x 2))

/-- Hermite interpolation midpoint state of the collocation constraint
(line 103 of the source). -/
def hsMidpoint (p : Config) (x : V6) (u : V3) (gamma_y : ℝ) (xip1 : V6) (t : ℝ) : V6 :=
  fun j => 0.5 * (x j + xip1Temp x xip1 j)
    + t / 8.0 * (x_dot p x u gamma_y j - x_dot p (xip1Temp x xip1) u gamma_y j)

/-- Componentwise residual of the Hermite-Simpson defect constraint
(line 106 of the source). -/
def hsDefect (p : Config) (x : V6) (u : V3) (gamma_y : ℝ) (xip1 : V6) (t : ℝ) : V6 :=
  fun j => x j + t / 6.0 *
      (x_dot p x u gamma_y j
        + 4 * x_dot p (hsMidpoint p x u gamma_y xip1 t) u gamma_y j
        + x_dot p (xip1Temp x xip1) u gamma_y j)
    - xip1Temp x xip1 j

/-- Satisfaction of the integration defect equality constraint. -/
def defectSat (p : Config) (x : V6) (u : V3) (gamma_y : ℝ) (xip1 : V6) (t : ℝ) : Prop :=
  ∀ j : Fin 6, hsDefect p x u gamma_y xip1 t j = 0

/-- Friction circle inequalities added for the four wheels by the tyre
constraint loop (lines 112-114 of the source). -/
def tyreConstraints (p : Config) (x : V6) (u : V3) (gamma_y : ℝ) : List Prop :=
  [(Fx_ij p u 0 / (p.mu * Fz_ij p x u gamma_y 0)) ^ 2
     + (Fy_ij p x u gamma_y 0 / (p.mu * Fz_ij p x u gamma_y 0)) ^ 2 ≤ 1,
   (Fx_ij p u 1 / (p.mu * Fz_ij p x u gamma_y 1)) ^ 2
     + (Fy_ij p x u gamma_y 1 / (p.mu * Fz_ij p x u gamma_y 1)) ^ 2 ≤ 1,
   (Fx_ij p u 2 / (p.mu * Fz_ij p x u gamma_y 2)) ^ 2
     + (Fy_ij p x u gamma_y 2 / (p.mu * Fz_ij p x u gamma_y 2)) ^ 2 ≤ 1,
   (Fx_ij p u 3 / (p.mu * Fz_ij p x u gamma_y 3)) ^ 2
     + (Fy_ij p x u gamma_y 3 / (p.mu * Fz_ij p x u gamma_y 3)) ^ 2 ≤ 1]

/-- Load transfer equality constraint (lines 117-121 of the source). -/
def loadTransferConstraint (p : Config) (x : V6) (u : V3) (gamma_y : ℝ) : Prop :=
  gamma_y =
    p.hcog / (0.5 * (p.twf + p.twr)) *
      (Fy_ij p x u gamma_y 2 + Fy_ij p x u gamma_y 3
        + (Fx_ij p u 0 + Fx_ij p u 1) * sin (u 2)
        + (Fy_ij p x u gamma_y 0 + Fy_ij p x u gamma_y 1) * cos (u 2))

/-- Static actuator constraints (lines 124-129 of the source), in source
order.  An opti.bounded call becomes the conjunction of its two
inequalities. -/
def staticConstraints (p : Config) (x : V6) (u : V3) : List Prop :=
  [x 5 * u 0 ≤ p.P_max,
   x 5 ≥ 0.0,
   0.0 ≤ u 0 ∧ u 0 ≤ p.Fd_max,
   p.Fb_max ≤ u 1 ∧ u 1 ≤ 0.0,
   (u 0 * u 1) ^ 2 ≤ 1.0,
   -1.0 * p.max_steer ≤ u 2 ∧ u 2 ≤ p.max_steer]

/-- Dynamic actuator (rate) constraints (lines 132-134 of the source),
with Tdelta = max_steer / max_steer_rate. -/
def rateConstraints (p : Config) (u uip1 : V3) (t : ℝ) : List Prop :=
  [(uip1 0 - u 0) / t ≤ p.Fd_max / p.Td,
   (uip1 1 - u 1) / t ≥ p.Fb_max / p.Tb,
   -(p.max_steer / (p.max_steer / p.max_steer_rate)) ≤ (uip1 2 - u 2) / t ∧
     (uip1 2 - u 2) / t ≤ p.max_steer / (p.max_steer / p.max_steer_rate)]

/-- The constraints added by add_nlp_constraints for one stage, in source
order: the integration defect, the four friction circle inequalities, the
load transfer equality, the six static actuator constraints and the three
actuator rate constraints. -/
def stageConstraints (p : Config) (x : V6) (u : V3) (gamma_y : ℝ)
    (xip1 : V6) (uip1 : V3) (t : ℝ) : List Prop :=
  defectSat p x u gamma_y xip1 t :: tyreConstraints p x u gamma_y
    ++ loadTransferConstraint p x u gamma_y :: staticConstraints p x u
    ++ rateConstraints p u uip1 t

/-- Every constraint of the list holds. -/
def allSat (cs : List Prop) : Prop := ∀ c ∈ cs, c

/-- The zero state vector. -/
def z6 : V6 := fun _ => 0

/-- The zero control vector. -/
def z3 : V3 := fun _ => 0

/-- A concrete parameter assignment used to instantiate theorems: all
masses, geometry, friction, limits and time constants are positive; the
force-curve shape factors Cf and Cr, rolling resistance, aerodynamic
coefficients and cg height are zero so that force expressions evaluate in
closed form. -/
def p0 : Config where
  kd := 0.5
  kb := 0.5
  m := 1
  Jzz := 1
  l := 2
  cgr := 0.5
  twf := 1
  twr := 1
  fr := 0
  hcog := 0
  kroll_f := 0.5
  cl_f := 0
  cl_r := 0
  rho := 0
  A := 0
  cd := 0
  mu := 1
  Bf := 1
  Cf := 0
  Ef := 0
  Fz0_f := 1
  eps_f := 0
  Br := 1
  Cr := 0
  Er := 0
  Fz0_r := 1
  eps_r := 0
  P_max := 1
  Fd_max := 1
  Fb_max := -1
  Td := 1
  Tb := 1
  max_steer := 1
  max_steer_rate := 1

lemma x_dot_apply_zero (p : Config) (x : V6) (u : V3) (g : ℝ) :
    x_dot p x u g 0 = x 5 * cos (x 2) := rfl

lemma x_dot_apply_one (p : Config) (x : V6) (u : V3) (g : ℝ) :
    x_dot p x u g 1 = x 5 * sin (x 2) := rfl

lemma x_dot_apply_two (p : Config) (x : V6) (u : V3) (g : ℝ) :
    x_dot p x u g 2 = x 3 := rfl

lemma x_dot_apply_three (p : Config) (x : V6) (u : V3) (g : ℝ) :
    x_dot p x u g 3 = omega_dot p x u g := rfl

lemma x_dot_apply_four (p : Config) (x : V6) (u : V3) (g : ℝ) :
    x_dot p x u g 4 = beta_dot p x u g := rfl

lemma x_dot_apply_five (p : Config) (x : V6) (u : V3) (g : ℝ) :
    x_dot p x u g 5 = v_dot p x u g := rfl

lemma alignYaw_self (y : ℝ) : alignYaw y y = y := by
  simp [alignYaw]

lemma xip1Temp_self (x : V6) : xip1Temp x x = x := by
  rw [xip1Temp, alignYaw_self, Function.update_eq_self]

lemma Fx_f_p0 : Fx_f p0 z3 = 0 := by
  norm_num [Fx_f, p0, z3, GRAVITY, lr, lf]

lemma Fx_r_p0 : Fx_r p0 z3 = 0 := by
  norm_num [Fx_r, p0, z3, GRAVITY, lr, lf]

lemma Fy_fl_p0 (x : V6) (u : V3) (g : ℝ) : Fy_fl p0 x u g = 0 := by
  simp [Fy_fl, p0]

lemma Fy_fr_p0 (x : V6) (u : V3) (g : ℝ) : Fy_fr p0 x u g = 0 := by
  simp [Fy_fr, p0]

lemma Fy_rl_p0 (x : V6) (u : V3) (g : ℝ) : Fy_rl p0 x u g = 0 := by
  simp [Fy_rl, p0]

lemma Fy_rr_p0 (x : V6) (u : V3) (g : ℝ) : Fy_rr p0 x u g = 0 := by
  simp [Fy_rr, p0]

lemma Fx_ij_zero (p : Config) (u : V3) : Fx_ij p u 0 = Fx_fl p u := rfl

lemma Fx_ij_one (p : Config) (u : V3) : Fx_ij p u 1 = Fx_fr p u := rfl

lemma Fx_ij_two (p : Config) (u : V3) : Fx_ij p u 2 = Fx_rl p u := rfl

lemma Fx_ij_three (p : Config) (u : V3) : Fx_ij p u 3 = Fx_rr p u := rfl

lemma Fy_ij_zero (p : Config) (x : V6) (u : V3) (g : ℝ) : Fy_ij p x u g 0 = Fy_fl p x u g := rfl

lemma Fy_ij_one (p : Config) (x : V6) (u : V3) (g : ℝ) : Fy_ij p x u g 1 = Fy_fr p x u g := rfl

lemma Fy_ij_two (p : Config) (x : V6) (u : V3) (g : ℝ) : Fy_ij p x u g 2 = Fy_rl p x u g := rfl

lemma Fy_ij_three (p : Config) (x : V6) (u : V3) (g : ℝ) : Fy_ij p x u g 3 = Fy_rr p x u g := rfl

lemma x_dot_p0 (j : Fin 6) : x_dot p0 z6 z3 0 j = 0 := by
  fin_cases j <;>
    simp [x_dot_apply_zero, x_dot_apply_one, x_dot_apply_two, x_dot_apply_three,
      x_dot_apply_four, x_dot_apply_five, omega_dot, beta_dot, v_dot,
      Fx_fl, Fx_fr, Fx_rl, Fx_rr, Fx_f_p0, Fx_r_p0,
      Fy_fl_p0, Fy_fr_p0, Fy_rl_p0, Fy_rr_p0, z6, z3]

lemma hsMidpoint_p0 : hsMidpoint p0 z6 z3 0 z6 1 = z6 := by
  funext j
  simp [hsMidpoint, xip1Temp_self, x_dot_p0, z6]

lemma defectSat_p0 : defectSat p0 z6 z3 0 z6 1 := by
  intro j
  simp [hsDefect, hsMidpoint_p0, xip1Temp_self, x_dot_p0, z6]

lemma allSat_cons (a : Prop) (l : List Prop) : allSat (a :: l) ↔ a ∧ allSat l := by
  constructor
  · intro h
    exact ⟨h a (List.mem_cons_self a l), fun c hc => h c (List.mem_cons_of_mem a hc)⟩
  · rintro ⟨ha, hl⟩ c hc
    rcases List.mem_cons.mp hc with h | h
    · exact h ▸ ha
    · exact hl c h

lemma allSat_nil : allSat [] := by
  simp [allSat]

lemma p0_hcog : p0.hcog = 0 := rfl

lemma p0_mu : p0.mu = 1 := rfl

lemma p0_P_max : p0.P_max = 1 := rfl

lemma p0_Fd_max : p0.Fd_max = 1 := rfl

lemma p0_Fb_max : p0.Fb_max = -1 := rfl

lemma p0_Td : p0.Td = 1 := rfl

lemma p0_Tb : p0.Tb = 1 := rfl

lemma p0_max_steer : p0.max_steer = 1 := rfl

lemma p0_max_steer_rate : p0.max_steer_rate = 1 := rfl

lemma allSat_append (l1 l2 : List Prop) : allSat (l1 ++ l2) ↔ allSat l1 ∧ allSat l2 := by
  constructor
  · intro h
    exact ⟨fun c hc => h c (List.mem_append_left _ hc),
      fun c hc => h c (List.mem_append_right _ hc)⟩
  · rintro ⟨h1, h2⟩ c hc
    rcases List.mem_append.mp hc with h | h
    · exact h1 c h
    · exact h2 c h

lemma allSat_stage_iff (p : Config) (x : V6) (u : V3) (gamma_y : ℝ)
    (xip1 : V6) (uip1 : V3) (t : ℝ) :
    allSat (stageConstraints p x u gamma_y xip1 uip1 t) ↔
      defectSat p x u gamma_y xip1 t ∧ allSat (tyreConstraints p x u gamma_y) ∧
        loadTransferConstraint p x u gamma_y ∧ allSat (staticConstraints p x u) ∧
        allSat (rateConstraints p u uip1 t) := by
  simp only [stageConstraints, allSat_append, allSat_cons]
  tauto

lemma tyre_p0 : allSat (tyreConstraints p0 z6 z3 0) := by
  rw [tyreConstraints]
  simp only [allSat_cons, allSat_nil, and_true]
  refine ⟨?_, ?_, ?_, ?_⟩
  · norm_num [Fx_ij_zero, Fx_fl, Fx_f_p0, Fy_ij_zero, Fy_fl_p0]
  · norm_num [Fx_ij_one, Fx_fr, Fx_f_p0, Fy_ij_one, Fy_fr_p0]
  · norm_num [Fx_ij_two, Fx_rl, Fx_r_p0, Fy_ij_two, Fy_rl_p0]
  · norm_num [Fx_ij_three, Fx_rr, Fx_r_p0, Fy_ij_three, Fy_rr_p0]

lemma load_p0 : loadTransferConstraint p0 z6 z3 0 := by
  rw [loadTransferConstraint]
  simp [p0_hcog]

lemma static_p0 : allSat (staticConstraints p0 z6 z3) := by
  rw [staticConstraints]
  simp only [allSat_cons, allSat_nil, and_true]
  refine ⟨?_, ?_, ?_, ?_, ?_, ?_⟩ <;>
    norm_num [z6, z3, p0_P_max, p0_Fd_max, p0_Fb_max, p0_max_steer]

lemma allSat_p0_of_rate (w : V3)
    (h1 : (w 0 - z3 0) / 1 ≤ p0.Fd_max / p0.Td)
    (h2 : (w 1 - z3 1) / 1 ≥ p0.Fb_max / p0.Tb)
    (h3 : -(p0.max_steer / (p0.max_steer / p0.max_steer_rate)) ≤ (w 2 - z3 2) / 1 ∧
      (w 2 - z3 2) / 1 ≤ p0.max_steer / (p0.max_steer / p0.max_steer_rate)) :
    allSat (stageConstraints p0 z6 z3 0 z6 w 1) := by
  have hrate : allSat (rateConstraints p0 z3 w 1) := by
    rw [rateConstraints]
    simp only [allSat_cons, allSat_nil, and_true]
    exact ⟨h1, h2, h3⟩
  rw [allSat_stage_iff]
  exact ⟨defectSat_p0, tyre_p0, load_p0, static_p0, hrate⟩

lemma allSat_p0 : allSat (stageConstraints p0 z6 z3 0 z6 z3 1) := by
  refine allSat_p0_of_rate z3 ?_ ?_ ?_ <;>
    norm_num [z3, p0_Fd_max, p0_Fb_max, p0_Td, p0_Tb, p0_max_steer, p0_max_steer_rate]

def uCE : V3 := ![-5, 0, 0]

lemma uCE_zero : uCE 0 = -5 := rfl

lemma uCE_one : uCE 1 = 0 := rfl

lemma uCE_two : uCE 2 = 0 := rfl

lemma allSat_ce : allSat (stageConstraints p0 z6 z3 0 z6 uCE 1) := by
  refine allSat_p0_of_rate uCE ?_ ?_ ?_ <;>
    norm_num [uCE_zero, uCE_one, uCE_two, z3, p0_Fd_max, p0_Fb_max, p0_Td, p0_Tb,
      p0_max_steer, p0_max_steer_rate]

lemma alignYaw_eq_add_int_mul (y r : ℝ) :
    alignYaw y r = y + 2 * π * ((round ((r - y) / (2 * π)) : ℤ) : ℝ) := rfl

lemma alignYaw_two_pi_zero : alignYaw (2 * π) 0 = 0 := by
  have h1 : ((0 : ℝ) - 2 * π) / (2 * π) = -1 := by
    rw [zero_sub, neg_div, div_self (by positivity : (2 * π : ℝ) ≠ 0)]
  have h2 : round ((-1 : ℝ)) = -1 := by
    have := round_intCast (α := ℝ) (-1)
    simpa using this
  rw [alignYaw, h1, h2]
  push_cast
  ring

lemma alignYaw_int_shift (y r : ℝ) (k : ℤ) :
    alignYaw (y + 2 * π * k) r = alignYaw y r := by
  have hpi : (2 * π : ℝ) ≠ 0 := by positivity
  have harg : (r - (y + 2 * π * k)) / (2 * π) = (r - y) / (2 * π) - k := by
    field_simp
    ring
  rw [alignYaw, alignYaw, harg, round_sub_int]
  push_cast
  ring

/-- Written from the claim of the spec: Hermite interpolation midpoint
computed directly from x_i and x_{i+1}, xm = (x_i + x_{i+1})/2
+ (dt/8)(f(x_i) - f(x_{i+1})), without any yaw alignment. -/
def specMidpoint (p : Config) (x : V6) (u : V3) (gamma_y : ℝ) (xip1 : V6) (t : ℝ) : V6 :=
  fun j => 0.5 * (x j + xip1 j)
    + t / 8.0 * (x_dot p x u gamma_y j - x_dot p xip1 u gamma_y j)

/-- Next-stage state whose yaw is a full turn ahead of the current one. -/
def xip1CE : V6 := Function.update z6 2 (2 * π)

lemma xip1CE_two : xip1CE 2 = 2 * π := by
  rw [xip1CE, Function.update_same]

lemma xip1CE_three : xip1CE 3 = 0 := by
  rw [xip1CE, Function.update_noteq (by decide : (3 : Fin 6) ≠ 2)]
  rfl

/-- C1: forward_dynamics resolves the lateral load transfer variable by
evaluating the load transfer equilibrium expression at gamma = 0 (not by
fixed-point iteration), substitutes that value into every output, and the
returned gamma_y entry is exactly the equilibrium expression at gamma = 0. -/
theorem forward_dynamics_resolves_gamma_at_zero (p : Config) (x : V6) (u : V3) :
    (forward_dynamics p x u).gamma_y = lltExpr p x u 0 ∧
    (forward_dynamics p x u).xd = x_dot p x u (lltExpr p x u 0) ∧
    (forward_dynamics p x u).FyOut = Fy_ij p x u (lltExpr p x u 0) ∧
    (forward_dynamics p x u).FzOut = Fz_ij p x u (lltExpr p x u 0) ∧
    (forward_dynamics p x u).FxOut = Fx_ij p u :=
  ⟨rfl, rfl, rfl, rfl, rfl⟩

/-- C7: forward_dynamics is deterministic; in the embedding it is a pure
function of the immutable configuration and the inputs, so equal inputs
give equal outputs and no model state is written. -/
theorem forward_dynamics_deterministic (p : Config) (x x' : V6) (u u' : V3)
    (hx : x = x') (hu : u = u') :
    forward_dynamics p x u = forward_dynamics p x' u' := by
  rw [hx, hu]

theorem forward_dynamics_deterministic_witness :
    z6 = z6 ∧ z3 = z3 ∧ forward_dynamics p0 z6 z3 = forward_dynamics p0 z6 z3 :=
  ⟨rfl, rfl, forward_dynamics_deterministic p0 z6 z6 z3 z3 rfl rfl⟩

/-- C3: add_nlp_constraints adds one friction circle inequality for each
of the four wheels, on the tyre forces evaluated at the stage state,
control and gamma; any point satisfying all stage constraints satisfies
the friction circle at all four wheels. -/
theorem friction_circle_all_wheels (p : Config) (x : V6) (u : V3) (gamma_y : ℝ)
    (xip1 : V6) (uip1 : V3) (t : ℝ)
    (h : allSat (stageConstraints p x u gamma_y xip1 uip1 t)) :
    ∀ i : Fin 4,
      (Fx_ij p u i / (p.mu * Fz_ij p x u gamma_y i)) ^ 2
        + (Fy_ij p x u gamma_y i / (p.mu * Fz_ij p x u gamma_y i)) ^ 2 ≤ 1 := by
  have ht := ((allSat_stage_iff p x u gamma_y xip1 uip1 t).mp h).2.1
  rw [tyreConstraints] at ht
  simp only [allSat_cons, allSat_nil, and_true] at ht
  intro i
  fin_cases i
  exacts [ht.1, ht.2.1, ht.2.2.1, ht.2.2.2]

theorem friction_circle_all_wheels_witness :
    allSat (stageConstraints p0 z6 z3 0 z6 z3 1) ∧
    ∀ i : Fin 4,
      (Fx_ij p0 z3 i / (p0.mu * Fz_ij p0 z6 z3 0 i)) ^ 2
        + (Fy_ij p0 z6 z3 0 i / (p0.mu * Fz_ij p0 z6 z3 0 i)) ^ 2 ≤ 1 :=
  ⟨allSat_p0, friction_circle_all_wheels p0 z6 z3 0 z6 z3 1 allSat_p0⟩

/-- C4: add_nlp_constraints adds the load transfer consistency equality;
at any point satisfying the stage constraints, gamma equals
hcog / (0.5 (twf + twr)) times the sum of the rear lateral forces, the
front longitudinal forces times sin(steer) and the front lateral forces
times cos(steer). -/
theorem load_transfer_consistency (p : Config) (x : V6) (u : V3) (gamma_y : ℝ)
    (xip1 : V6) (uip1 : V3) (t : ℝ)
    (h : allSat (stageConstraints p x u gamma_y xip1 uip1 t)) :
    gamma_y =
      p.hcog / (0.5 * (p.twf + p.twr)) *
        (Fy_ij p x u gamma_y 2 + Fy_ij p x u gamma_y 3
          + (Fx_ij p u 0 + Fx_ij p u 1) * sin (u 2)
          + (Fy_ij p x u gamma_y 0 + Fy_ij p x u gamma_y 1) * cos (u 2)) :=
  ((allSat_stage_iff p x u gamma_y xip1 uip1 t).mp h).2.2.1

theorem load_transfer_consistency_witness :
    allSat (stageConstraints p0 z6 z3 0 z6 z3 1) ∧
    (0 : ℝ) =
      p0.hcog / (0.5 * (p0.twf + p0.twr)) *
        (Fy_ij p0 z6 z3 0 2 + Fy_ij p0 z6 z3 0 3
          + (Fx_ij p0 z3 0 + Fx_ij p0 z3 1) * sin (z3 2)
          + (Fy_ij p0 z6 z3 0 0 + Fy_ij p0 z6 z3 0 1) * cos (z3 2)) :=
  ⟨allSat_p0, load_transfer_consistency p0 z6 z3 0 z6 z3 1 allSat_p0⟩

/-- C5: the static actuator block of add_nlp_constraints consists exactly
of: speed nonnegative, the drive power bound, drive force in [0, Fd_max],
brake force in [Fb_max, 0], the throttle and brake mutual exclusion, and
the steering magnitude bound. -/
theorem static_actuator_bounds_exact (p : Config) (x : V6) (u : V3) :
    allSat (staticConstraints p x u) ↔
      (x 5 ≥ 0.0 ∧ x 5 * u 0 ≤ p.P_max ∧ (0.0 ≤ u 0 ∧ u 0 ≤ p.Fd_max) ∧
        (p.Fb_max ≤ u 1 ∧ u 1 ≤ 0.0) ∧ (u 0 * u 1) ^ 2 ≤ 1.0 ∧
        |u 2| ≤ p.max_steer) := by
  rw [staticConstraints]
  simp only [allSat_cons, allSat_nil, and_true]
  constructor
  · rintro ⟨h1, h2, h3, h4, h5, h6⟩
    exact ⟨h2, h1, h3, h4, h5, abs_le.mpr ⟨by linarith [h6.1], h6.2⟩⟩
  · rintro ⟨h1, h2, h3, h4, h5, h6⟩
    have h7 := abs_le.mp h6
    exact ⟨h2, h1, h3, h4, h5, ⟨by linarith [h7.1], h7.2⟩⟩

/-- C2 counterexample: the collocation midpoint computed by the code is
not (x_i + x_{i+1})/2 + (t/8)(f(x_i) - f(x_{i+1})): with x_i at yaw 0 and
x_{i+1} at yaw 2 pi, the code midpoint has yaw 0 while the formula of the
claim gives yaw pi, because the code first aligns the yaw of x_{i+1}. -/
theorem hermite_simpson_midpoint_counterexample :
    hsMidpoint p0 z6 z3 0 xip1CE 1 2 ≠ specMidpoint p0 z6 z3 0 xip1CE 1 2 := by
  have htemp2 : xip1Temp z6 xip1CE 2 = 0 := by
    rw [xip1Temp, Function.update_same, xip1CE_two]
    show alignYaw (2 * π) (z6 2) = 0
    rw [show z6 2 = (0 : ℝ) from rfl, alignYaw_two_pi_zero]
  have htemp3 : xip1Temp z6 xip1CE 3 = 0 := by
    rw [xip1Temp, Function.update_noteq (by decide : (3 : Fin 6) ≠ 2), xip1CE_three]
  have hhs : hsMidpoint p0 z6 z3 0 xip1CE 1 2 = 0 := by
    rw [hsMidpoint]
    simp [x_dot_apply_two, htemp2, htemp3, show z6 2 = (0 : ℝ) from rfl,
      show z6 3 = (0 : ℝ) from rfl]
  have hspec : specMidpoint p0 z6 z3 0 xip1CE 1 2 = π := by
    rw [specMidpoint]
    simp [x_dot_apply_two, xip1CE_two, xip1CE_three, show z6 2 = (0 : ℝ) from rfl,
      show z6 3 = (0 : ℝ) from rfl]
    ring
  rw [hhs, hspec]
  exact fun h => Real.pi_ne_zero h.symm

/-- C2 amended: the defect constraint uses x_{i+1} with its yaw aligned
to the yaw of x_i by an integer multiple of 2 pi; consequently a point
satisfying the defect equality reproduces stage i+1 exactly in every
component except yaw via the Hermite-Simpson update, and reproduces the
yaw up to an added integer multiple of 2 pi. -/
theorem hermite_simpson_defect_amended (p : Config) (x : V6) (u : V3) (gamma_y : ℝ)
    (xip1 : V6) (t : ℝ) (h : defectSat p x u gamma_y xip1 t) :
    (∀ j : Fin 6, j ≠ 2 →
      x j + t / 6.0 * (x_dot p x u gamma_y j
        + 4 * x_dot p (hsMidpoint p x u gamma_y xip1 t) u gamma_y j
        + x_dot p (xip1Temp x xip1) u gamma_y j) = xip1 j) ∧
    ∃ k : ℤ, x 2 + t / 6.0 * (x_dot p x u gamma_y 2
        + 4 * x_dot p (hsMidpoint p x u gamma_y xip1 t) u gamma_y 2
        + x_dot p (xip1Temp x xip1) u gamma_y 2) = xip1 2 + 2 * π * k := by
  constructor
  · intro j hj
    have hd := h j
    rw [hsDefect] at hd
    have h2 := sub_eq_zero.mp hd
    exact h2.trans (by rw [xip1Temp, Function.update_noteq hj])
  · have hd := h 2
    rw [hsDefect] at hd
    have h2 := sub_eq_zero.mp hd
    refine ⟨round ((x 2 - xip1 2) / (2 * π)), ?_⟩
    rw [h2, xip1Temp, Function.update_same, alignYaw]

theorem hermite_simpson_defect_amended_witness :
    defectSat p0 z6 z3 0 z6 1 ∧
    ((∀ j : Fin 6, j ≠ 2 →
      z6 j + 1 / 6.0 * (x_dot p0 z6 z3 0 j
        + 4 * x_dot p0 (hsMidpoint p0 z6 z3 0 z6 1) z3 0 j
        + x_dot p0 (xip1Temp z6 z6) z3 0 j) = z6 j) ∧
    ∃ k : ℤ, z6 2 + 1 / 6.0 * (x_dot p0 z6 z3 0 2
        + 4 * x_dot p0 (hsMidpoint p0 z6 z3 0 z6 1) z3 0 2
        + x_dot p0 (xip1Temp z6 z6) z3 0 2) = z6 2 + 2 * π * k) :=
  ⟨defectSat_p0, hermite_simpson_defect_amended p0 z6 z3 0 z6 1 defectSat_p0⟩

/-- C6 counterexample: the stage constraints do not bound the drive force
rate in both directions: at a point satisfying every stage constraint the
drive force drops by 5 Fd_max/Td in one step of unit length. -/
theorem rate_bound_one_sided_counterexample :
    allSat (stageConstraints p0 z6 z3 0 z6 uCE 1) ∧
    ¬ |(uCE 0 - z3 0) / 1| ≤ p0.Fd_max / p0.Td := by
  refine ⟨allSat_ce, ?_⟩
  norm_num [uCE_zero, z3, p0_Fd_max, p0_Td]

/-- C6 amended: the dynamic actuator block bounds the drive force rate
from above only by Fd_max/Td, the brake force rate from below only by
Fb_max/Tb, and the steer rate in both directions by
max_steer/Tdelta with Tdelta = max_steer/max_steer_rate. -/
theorem actuator_rate_bounds_amended (p : Config) (u uip1 : V3) (t : ℝ) :
    allSat (rateConstraints p u uip1 t) ↔
      ((uip1 0 - u 0) / t ≤ p.Fd_max / p.Td ∧
        p.Fb_max / p.Tb ≤ (uip1 1 - u 1) / t ∧
        |(uip1 2 - u 2) / t| ≤ p.max_steer / (p.max_steer / p.max_steer_rate)) := by
  rw [rateConstraints]
  simp only [allSat_cons, allSat_nil, and_true]
  constructor
  · rintro ⟨h1, h2, h3⟩
    exact ⟨h1, h2, abs_le.mpr h3⟩
  · rintro ⟨h1, h2, h3⟩
    exact ⟨h1, h2, abs_le.mp h3⟩

/-- C10: before the defect constraint is formed, the yaw of x_{i+1} is
replaced by a copy shifted by an integer multiple of 2 pi chosen to align
it with the yaw of x_i, every other component being kept; consequently
the defect equality is invariant under shifting the yaw of x_{i+1} by
any integer multiple of 2 pi, constraining yaw only modulo 2 pi. -/
theorem defect_constrains_yaw_mod_two_pi :
    (∀ x xip1 : V6, ∃ k : ℤ, xip1Temp x xip1 2 = xip1 2 + 2 * π * k) ∧
    (∀ x xip1 : V6,
      xip1Temp x xip1 0 = xip1 0 ∧ xip1Temp x xip1 1 = xip1 1 ∧
      xip1Temp x xip1 3 = xip1 3 ∧ xip1Temp x xip1 4 = xip1 4 ∧
      xip1Temp x xip1 5 = xip1 5) ∧
    (∀ (p : Config) (x : V6) (u : V3) (gamma_y : ℝ) (xip1 : V6) (t : ℝ) (k : ℤ),
      defectSat p x u gamma_y xip1 t ↔
        defectSat p x u gamma_y (Function.update xip1 2 (xip1 2 + 2 * π * k)) t) := by
  refine ⟨?_, ?_, ?_⟩
  · intro x xip1
    rw [xip1Temp, Function.update_same]
    exact ⟨round ((x 2 - xip1 2) / (2 * π)), rfl⟩
  · intro x xip1
    refine ⟨?_, ?_, ?_, ?_, ?_⟩ <;>
      rw [xip1Temp, Function.update_noteq (by decide)]
  · intro p x u gamma_y xip1 t k
    have htemp : xip1Temp x (Function.update xip1 2 (xip1 2 + 2 * π * k)) =
        xip1Temp x xip1 := by
      funext j
      rcases eq_or_ne j 2 with hj | hj
      · subst hj
        rw [xip1Temp, Function.update_same, xip1Temp, Function.update_same,
          Function.update_same, alignYaw_int_shift]
      · rw [xip1Temp, Function.update_noteq hj, Function.update_noteq hj,
          xip1Temp, Function.update_noteq hj]
    unfold defectSat hsDefect hsMidpoint
    simp only [htemp]

/-- Modelled from the spec: a sample vehicle parameter assignment.  The
parameter files the tests load (sample_vehicle.param.yaml of
base_vehicle_model and double_track_planar_model) are not among the
sources; this concrete assignment satisfies the invariants the spec
states (positive mass, geometry, friction coefficient and actuator
limits).  The force-curve shape factors Cf and Cr are zero, making the
lateral tyre forces vanish identically so the scenario evaluates in
closed form. -/
def pS : Config where
  kd := 0.5
  kb := 0.5
  m := 1000
  Jzz := 1000
  l := 3
  cgr := 0.5
  twf := 1.6
  twr := 1.6
  fr := 0.01
  hcog := 0.3
  kroll_f := 0.5
  cl_f := 0
  cl_r := 0
  rho := 1.2
  A := 1
  cd := 0.2
  mu := 0.9
  Bf := 10
  Cf := 0
  Ef := 1
  Fz0_f := 3000
  eps_f := 0
  Br := 10
  Cr := 0
  Er := 1
  Fz0_r := 3000
  eps_r := 0
  P_max := 300000
  Fd_max := 5000
  Fb_max := -10000
  Td := 0.1
  Tb := 0.1
  max_steer := 0.3
  max_steer_rate := 1

/-- Scenario state of the spec: x = [0, 0, 0, 0.1, 0.02, 40]. -/
def xS : V6 := ![0, 0, 0, 0.1, 0.02, 40]

/-- Scenario control of the spec: u = [500, 0, 0.1]. -/
def uS : V3 := ![500, 0, 0.1]

lemma xS_three : xS 3 = 0.1 := rfl

lemma xS_four : xS 4 = 0.02 := rfl

lemma xS_five : xS 5 = 40 := rfl

lemma uS_zero : uS 0 = 500 := rfl

lemma uS_one : uS 1 = 0 := rfl

lemma uS_two : uS 2 = 0.1 := rfl

/-- Nonvanishing of the slip angle denominators v cos(beta) plus or
minus (tw/2) omega and of the slip derivative denominator m v. -/
def slipDenomsNonzero (p : Config) (x : V6) : Prop :=
  x 5 * cos (x 4) - 0.5 * p.twf * x 3 ≠ 0 ∧
  x 5 * cos (x 4) + 0.5 * p.twf * x 3 ≠ 0 ∧
  x 5 * cos (x 4) - 0.5 * p.twr * x 3 ≠ 0 ∧
  x 5 * cos (x 4) + 0.5 * p.twr * x 3 ≠ 0 ∧
  p.m * x 5 ≠ 0

/-- Nonvanishing of every division denominator occurring in the outputs
of forward_dynamics: mass, wheel base, axle distance sum, inertia, the
tyre reference loads, the track width mean of the load transfer
expression, and the slip denominators. -/
def xdotDenomsNonzero (p : Config) (x : V6) : Prop :=
  p.m ≠ 0 ∧ p.l ≠ 0 ∧ lf p + lr p ≠ 0 ∧ p.Jzz ≠ 0 ∧ p.Fz0_f ≠ 0 ∧ p.Fz0_r ≠ 0 ∧
  0.5 * (p.twf + p.twr) ≠ 0 ∧ slipDenomsNonzero p x

lemma cos_ge_half_of_le_one (y : ℝ) (h0 : 0 ≤ y) (h1 : y ≤ 1) : 1 / 2 ≤ cos y := by
  have hpi : (3 : ℝ) < π := pi_gt_three
  have h2 : cos (π / 3) ≤ cos y :=
    cos_le_cos_of_nonneg_of_le_pi h0 (by linarith) (by linarith)
  rw [cos_pi_div_three] at h2
  exact h2

lemma cos_002_half : 1 / 2 ≤ cos (0.02 : ℝ) :=
  cos_ge_half_of_le_one 0.02 (by norm_num) (by norm_num)

lemma cos_002_pos : 0 < cos (0.02 : ℝ) :=
  lt_of_lt_of_le (by norm_num) cos_002_half

lemma cos_008_pos : 0 < cos (0.08 : ℝ) :=
  lt_of_lt_of_le (by norm_num) (cos_ge_half_of_le_one 0.08 (by norm_num) (by norm_num))

lemma Fy_fl_pS (x : V6) (u : V3) (g : ℝ) : Fy_fl pS x u g = 0 := by
  simp [Fy_fl, pS]

lemma Fy_fr_pS (x : V6) (u : V3) (g : ℝ) : Fy_fr pS x u g = 0 := by
  simp [Fy_fr, pS]

lemma Fy_rl_pS (x : V6) (u : V3) (g : ℝ) : Fy_rl pS x u g = 0 := by
  simp [Fy_rl, pS]

lemma Fy_rr_pS (x : V6) (u : V3) (g : ℝ) : Fy_rr pS x u g = 0 := by
  simp [Fy_rr, pS]

lemma v_dot_pS_pos (g : ℝ) : 0 < v_dot pS xS uS g := by
  rw [v_dot, Fy_fl_pS, Fy_fr_pS, Fy_rl_pS, Fy_rr_pS]
  norm_num [Fx_fl, Fx_fr, Fx_rl, Fx_rr, Fx_f, Fx_r, pS, xS_four, xS_five, uS_zero,
    uS_one, uS_two, GRAVITY, lr, lf]
  nlinarith [cos_002_half, cos_002_pos, cos_008_pos]

/-- C8: at x = [0, 0, 0, 0.1, 0.02, 40] and u = [500, 0, 0.1], with the
spec-modelled sample parameters, every denominator of the derivative
computation is nonzero (the real-arithmetic rendering of emitting no NaN
or Inf) and the speed derivative component x_dot 5 is strictly positive. -/
theorem forward_dynamics_sample_positive :
    xdotDenomsNonzero pS xS ∧ 0 < (forward_dynamics pS xS uS).xd 5 := by
  constructor
  · refine ⟨?_, ?_, ?_, ?_, ?_, ?_, ?_, ?_, ?_, ?_, ?_, ?_⟩
    · norm_num [pS]
    · norm_num [pS]
    · norm_num [lf, lr, pS]
    · norm_num [pS]
    · norm_num [pS]
    · norm_num [pS]
    · norm_num [pS]
    · refine ne_of_gt ?_
      rw [xS_three, xS_four, xS_five]
      norm_num [pS]
      nlinarith [cos_002_half]
    · refine ne_of_gt ?_
      rw [xS_three, xS_four, xS_five]
      norm_num [pS]
      nlinarith [cos_002_half]
    · refine ne_of_gt ?_
      rw [xS_three, xS_four, xS_five]
      norm_num [pS]
      nlinarith [cos_002_half]
    · refine ne_of_gt ?_
      rw [xS_three, xS_four, xS_five]
      norm_num [pS]
      nlinarith [cos_002_half]
    · rw [xS_five]
      norm_num [pS]
  · have h : (forward_dynamics pS xS uS).xd 5
        = v_dot pS xS uS (lateral_load_transfer pS xS uS 0) := rfl
    rw [h]
    exact v_dot_pS_pos _

/-- C9 counterexample: no minimum speed floor exists above which all the
slip angle denominators are nonzero for every input, because slip angle
and yaw rate are unconstrained: at slip angle pi/2 and yaw rate 0 the
denominator v cos(beta) - (twf/2) omega vanishes at any speed.  This
proves the negation of the claim. -/
theorem no_speed_floor_counterexample :
    ¬ ∃ vmin : ℝ, ∀ (x : V6) (u : V3), x 5 ≥ vmin → slipDenomsNonzero pS x := by
  rintro ⟨vmin, h⟩
  have hd := (h ![0, 0, 0, 0, π / 2, max vmin 1] z3 (le_max_left _ _)).1
  apply hd
  have h4 : (![0, 0, 0, 0, π / 2, max vmin 1] : V6) 4 = π / 2 := rfl
  have h3 : (![0, 0, 0, 0, π / 2, max vmin 1] : V6) 3 = 0 := rfl
  rw [h4, h3, cos_pi_div_two]
  ring

/-- C9 amended: a speed floor alone does not bound the denominators away
from zero; all of them are nonzero under the joint precondition of
positive mass, positive speed and the dominance condition that
(tw/2) |omega| stays below v cos(beta) for both track widths. -/
theorem slip_denominators_nonzero_amended (p : Config) (x : V6)
    (hm : 0 < p.m) (hv : 0 < x 5)
    (hf : |0.5 * p.twf * x 3| < x 5 * cos (x 4))
    (hr : |0.5 * p.twr * x 3| < x 5 * cos (x 4)) :
    slipDenomsNonzero p x := by
  refine ⟨?_, ?_, ?_, ?_, ?_⟩
  · exact ne_of_gt (by linarith [le_abs_self (0.5 * p.twf * x 3)])
  · exact ne_of_gt (by linarith [neg_abs_le (0.5 * p.twf * x 3)])
  · exact ne_of_gt (by linarith [le_abs_self (0.5 * p.twr * x 3)])
  · exact ne_of_gt (by linarith [neg_abs_le (0.5 * p.twr * x 3)])
  · exact ne_of_gt (mul_pos hm hv)

theorem slip_denominators_nonzero_amended_witness :
    0 < pS.m ∧ 0 < xS 5 ∧ |0.5 * pS.twf * xS 3| < xS 5 * cos (xS 4) ∧
      |0.5 * pS.twr * xS 3| < xS 5 * cos (xS 4) ∧ slipDenomsNonzero pS xS := by
  have hf : |0.5 * pS.twf * xS 3| < xS 5 * cos (xS 4) := by
    have h08 : (0.5 * pS.twf * xS 3 : ℝ) = 0.08 := by norm_num [pS, xS_three]
    rw [h08, xS_four, xS_five, abs_of_pos (by norm_num : (0 : ℝ) < 0.08)]
    nlinarith [cos_002_half]
  have hr : |0.5 * pS.twr * xS 3| < xS 5 * cos (xS 4) := by
    have h08 : (0.5 * pS.twr * xS 3 : ℝ) = 0.08 := by norm_num [pS, xS_three]
    rw [h08, xS_four, xS_five, abs_of_pos (by norm_num : (0 : ℝ) < 0.08)]
    nlinarith [cos_002_half]
  have hm : 0 < pS.m := by norm_num [pS]
  have hv : 0 < xS 5 := by rw [xS_five]; norm_num
  exact ⟨hm, hv, hf, hr, slip_denominators_nonzero_amended pS xS hm hv hf hr⟩
